import Mathlib

/-!
Shallow embedding of the rcc compiler core (src/lexer.rs, src/parser.rs,
src/analyzer.rs, src/codegen.rs).

Conventions used throughout:
* Rust Vec-based stacks are modelled as Lean lists with the TOP of the
  stack at the HEAD of the list (Rust pushes/pops at the Vec's end, so the
  list is the Vec reversed; all operations are mirrored accordingly).
* Rust HashMap scopes are modelled as association lists; "insert" conses a
  binding in front, which is observationally equal to HashMap insert for
  the only read operation the code performs (first-match lookup).
* anyhow string errors are modelled by inductive error types whose
  constructor names transcribe the distinct messages of the source.
* "todo!()" panics (aborts) are modelled as Option.none.
* Source positions (Position) are carried by tokens only for diagnostics;
  the parser matches exclusively on "token.kind", so tokens are modelled
  by their TokenKind.
-/

deriving instance DecidableEq for Except

/-- lexer.rs "Operator". -/
inductive Operator where
  | Plus
  | Minus
  | Star
  | Slash
deriving DecidableEq, Repr, Fintype

/-- lexer.rs "Type" ("Type" is reserved in Lean, hence "Ty"). -/
inductive Ty where
  | Int
  | Void
deriving DecidableEq, Repr

/-- lexer.rs "Separator". -/
inductive Separator where
  | LParen
  | RParen
  | LBrace
  | RBrace
  | Semi
deriving DecidableEq, Repr

/-- lexer.rs "Keyword". -/
inductive Keyword where
  | Return
deriving DecidableEq, Repr

/-- lexer.rs "TokenKind"; u32 literals are modelled as Nat (the lexer,
an external collaborator, guarantees the u32 range). -/
inductive TokenKind where
  | Identifier (name : String)
  | Keyword (k : Keyword)
  | Type (t : Ty)
  | Separator (s : Separator)
  | Operator (o : Operator)
  | IntLit (n : Nat)
deriving DecidableEq, Repr

/-- lexer.rs "impl Precedence for Operator". -/
def Operator.precedence : Operator → Nat
  | .Plus | .Minus => 1
  | .Star | .Slash => 2

/-- parser.rs "Expression". -/
inductive Expression where
  | IntLit (n : Nat)
  | FunctionCall (name : String)
  | Binary (left : Expression) (op : Operator) (right : Expression)
deriving DecidableEq, Repr

/-- parser.rs "Statement". -/
inductive Statement where
  | Return (e : Option Expression)
deriving DecidableEq, Repr

/-- parser.rs "Function". -/
structure Function where
  return_type : Ty
  name : String
  body : List Statement
deriving DecidableEq, Repr

/-- parser.rs "Program". -/
structure Program where
  functions : List Function
deriving DecidableEq, Repr

/-- Parse errors; each constructor transcribes one distinct anyhow
message of parser.rs. -/
inductive PError where
  /-- The anyhow message "Invalid expression: Mismatched parentheses" (parser.rs line 135). -/
  | MismatchedParentheses
  /-- The anyhow message "Invalid expression: Not enough operands" (parser.rs line 187). -/
  | NotEnoughOperands
  /-- The anyhow message "Invalid expression: Too many operands" (parser.rs line 174). -/
  | TooManyOperands
  /-- The anyhow message "Invalid expression: Expected operator" (parser.rs line 151, a dead arm). -/
  | ExpectedOperator
  /-- The anyhow message "Expected .., found .." of TokenStream::expect (parser.rs line 213). -/
  | UnexpectedToken (expected : TokenKind)
  /-- The anyhow message "Expected .., found EOF" of TokenStream::expect (parser.rs line 214). -/
  | UnexpectedEOF (expected : TokenKind)
deriving DecidableEq, Repr

/-- parser.rs "Parser::apply_operator": pop right then left; with fewer
than two operands fail "Not enough operands", else push the Binary node. -/
def applyOperator (operandStack : List Expression) (op : Operator) :
    Except PError (List Expression) :=
  match operandStack with
  | right :: left :: rest => .ok (.Binary left op right :: rest)
  | _ => .error .NotEnoughOperands

/-- parser.rs lines 137-139 and 168-170, the loop
"while let Some(TokenKind::Operator(op)) = operator_stack.pop()":
pop entries and apply each operator; the first popped non-operator entry
(an LParen marker) is consumed and stops the loop; an empty stack stops
the loop. Returns the updated operand stack and the remaining operator
stack. -/
def drainOperators (operatorStack : List TokenKind)
    (operandStack : List Expression) :
    Except PError (List Expression × List TokenKind) :=
  match operatorStack with
  | .Operator op :: rest => do
      let operandStack ← applyOperator operandStack op
      drainOperators rest operandStack
  | _ :: rest => .ok (operandStack, rest)
  | [] => .ok (operandStack, [])

/-- parser.rs lines 146-160: while the stack's top is an operator of
precedence greater than or equal to "prec", pop it and apply it. -/
def popGreaterEq (operatorStack : List TokenKind)
    (operandStack : List Expression) (prec : Nat) :
    Except PError (List TokenKind × List Expression) :=
  match operatorStack with
  | .Operator topOp :: rest =>
      if topOp.precedence ≥ prec then do
        let operandStack ← applyOperator operandStack topOp
        popGreaterEq rest operandStack prec
      else .ok (operatorStack, operandStack)
  | _ => .ok (operatorStack, operandStack)

/-- parser.rs lines 168-175: after scanning ends, drain the operator
stack, then inspect the operand stack: zero operands mean "no
expression", one operand is the result, more fail "Too many operands". -/
def finishExpression (operandStack : List Expression)
    (operatorStack : List TokenKind) : Except PError (Option Expression) := do
  let (operandStack, _) ← drainOperators operatorStack operandStack
  match operandStack with
  | [] => .ok none
  | [e] => .ok (some e)
  | _ => .error .TooManyOperands

/-- parser.rs "Parser::parse_expression", the scanning loop (lines
109-167) followed by the finish code (lines 168-175). Returns the parsed
optional expression and the unconsumed tokens (the Rust code leaves them
in the peekable stream). The two TokenStream::expect calls of the
function-call case are inlined. -/
def parseExpressionLoop (tokens : List TokenKind)
    (operandStack : List Expression) (operatorStack : List TokenKind) :
    Except PError (Option Expression × List TokenKind) :=
  match tokens with
  | .IntLit n :: rest =>
      parseExpressionLoop rest (.IntLit n :: operandStack) operatorStack
  | .Identifier name :: rest =>
      match rest with
      | t1 :: rest2 =>
          if t1 = .Separator .LParen then
            match rest2 with
            | t2 :: rest3 =>
                if t2 = .Separator .RParen then
                  parseExpressionLoop rest3
                    (.FunctionCall name :: operandStack) operatorStack
                else .error (.UnexpectedToken (.Separator .RParen))
            | [] => .error (.UnexpectedEOF (.Separator .RParen))
          else .error (.UnexpectedToken (.Separator .LParen))
      | [] => .error (.UnexpectedEOF (.Separator .LParen))
  | .Separator .LParen :: rest =>
      parseExpressionLoop rest operandStack (.Separator .LParen :: operatorStack)
  | .Separator .RParen :: rest =>
      if operatorStack = [] then .error .MismatchedParentheses
      else
        match drainOperators operatorStack operandStack with
        | .ok (operandStack, operatorStack) =>
            parseExpressionLoop rest operandStack operatorStack
        | .error e => .error e
  | .Operator op :: rest =>
      match popGreaterEq operatorStack operandStack op.precedence with
      | .ok (operatorStack, operandStack) =>
          parseExpressionLoop rest operandStack (.Operator op :: operatorStack)
      | .error e => .error e
  | _ :: _ =>
      (finishExpression operandStack operatorStack).map (fun e => (e, tokens))
  | [] =>
      (finishExpression operandStack operatorStack).map (fun e => (e, tokens))

/-- parser.rs "Parser::parse_expression" entered with both stacks empty. -/
def parseExpression (tokens : List TokenKind) :
    Except PError (Option Expression × List TokenKind) :=
  parseExpressionLoop tokens [] []

/-- analyzer.rs "SymbolType" ("Variable" clashes with a Lean keyword-like
builtin, hence "Var"). -/
inductive SymbolType where
  | Function (parameters : List Ty)
  | Var
deriving DecidableEq, Repr

/-- analyzer.rs "SymbolInfo". -/
structure SymbolInfo where
  symbol_type : SymbolType
  data_type : Ty
deriving DecidableEq, Repr

/-- One scope frame: HashMap<String, SymbolInfo> modelled as an
association list (first match wins on lookup, insert conses in front). -/
def Scope : Type := List (String × SymbolInfo)

instance : DecidableEq Scope := by
  unfold Scope
  infer_instance

/-- analyzer.rs "SymbolTable": Vec of scopes; the innermost scope (the
Vec's last element) is the HEAD of the list. -/
structure SymbolTable where
  stack : List Scope
deriving DecidableEq

/-- analyzer.rs "SymbolTable::new": a single (global) empty scope. -/
def SymbolTable.new : SymbolTable := ⟨[[]]⟩

/-- analyzer.rs "SymbolTable::enter_scope". -/
def SymbolTable.enter_scope (t : SymbolTable) : SymbolTable :=
  ⟨[] :: t.stack⟩

/-- analyzer.rs "SymbolTable::exit_scope" (Vec::pop: a no-op on an empty
stack). -/
def SymbolTable.exit_scope (t : SymbolTable) : SymbolTable :=
  ⟨t.stack.tail⟩

/-- analyzer.rs "SymbolTable::insert": write into the innermost scope;
with no scope at all (last_mut is None) the insert is silently dropped. -/
def SymbolTable.insert (t : SymbolTable) (name : String)
    (symbol_info : SymbolInfo) : SymbolTable :=
  match t.stack with
  | [] => t
  | scope :: rest => ⟨((name, symbol_info) :: scope) :: rest⟩

/-- analyzer.rs "SymbolTable::get": search scopes innermost-first,
returning the first binding of the name. -/
def SymbolTable.get (t : SymbolTable) (name : String) : Option SymbolInfo :=
  t.stack.findSome? (fun scope => List.lookup name scope)

/-- Analysis errors; each constructor transcribes one distinct anyhow
message of analyzer.rs. -/
inductive AError where
  /-- The anyhow message "Undefined function .." (analyzer.rs line 58). -/
  | UndefinedFunction (name : String)
  /-- The anyhow message "Type mismatch: .. and .." (analyzer.rs line 66). -/
  | TypeMismatch (left right : Ty)
  /-- The anyhow message "Expected .., found .." (analyzer.rs line 45). -/
  | ReturnTypeMismatch (expected found : Ty)
deriving DecidableEq, Repr

/-- analyzer.rs "Analyzer::analyze_expression", Some cases. The Rust code
recurses by rewrapping each child in Some; splitting the Some payload
into its own structural recursion is observationally identical. -/
def analyzeExpr (t : SymbolTable) : Expression → Except AError Ty
  | .IntLit _ => .ok .Int
  | .FunctionCall name =>
      match t.get name with
      | some symbol_info => .ok symbol_info.data_type
      | none => .error (.UndefinedFunction name)
  | .Binary left _ right => do
      let left_type ← analyzeExpr t left
      let right_type ← analyzeExpr t right
      if left_type ≠ right_type then
        .error (.TypeMismatch left_type right_type)
      else
        .ok left_type

/-- analyzer.rs "Analyzer::analyze_expression" on the optional
expression of a return statement: absent expression types as Void. -/
def analyzeExpression (t : SymbolTable) : Option Expression → Except AError Ty
  | some e => analyzeExpr t e
  | none => .ok .Void

/-- analyzer.rs "Analyzer::analyze_statement": the type of a return
statement's expression must equal the enclosing function's return type.
Statement analysis never mutates the symbol table. -/
def analyzeStatement (t : SymbolTable) (statement : Statement)
    (return_type : Ty) : Except AError Unit :=
  match statement with
  | .Return expression => do
      let expression_type ← analyzeExpression t expression
      if expression_type ≠ return_type then
        .error (.ReturnTypeMismatch return_type expression_type)
      else
        .ok ()

/-- The "for statement in &function.body" loop of analyze_function:
returns the first error, none if every statement passes. -/
def analyzeStatements (t : SymbolTable) (return_type : Ty) :
    List Statement → Option AError
  | [] => none
  | statement :: rest =>
      match analyzeStatement t statement return_type with
      | .ok _ => analyzeStatements t return_type rest
      | .error e => some e

/-- analyzer.rs "Analyzer::analyze_function". The Analyzer's symbol
table persists across the call, so the table state is returned together
with the possible error. On the error path the "?" operator returns
before exit_scope runs, so the entered scope is NOT popped. -/
def analyzeFunction (t : SymbolTable) (function : Function) :
    SymbolTable × Option AError :=
  let info : SymbolInfo := ⟨.Function [], function.return_type⟩
  let t := (t.insert function.name info).enter_scope
  match analyzeStatements t function.return_type function.body with
  | some e => (t, some e)
  | none => (t.exit_scope, none)

/-- The "for function in &program.functions" loop of analyze: stop at the
first failing function, keeping the table state reached so far. -/
def analyzeAll (t : SymbolTable) : List Function → SymbolTable × Option AError
  | [] => (t, none)
  | function :: rest =>
      match analyzeFunction t function with
      | (t, none) => analyzeAll t rest
      | (t, some e) => (t, some e)

/-- analyzer.rs "Analyzer::new().analyze(program)": a fresh symbol table
per compilation. -/
def analyze (program : Program) : SymbolTable × Option AError :=
  analyzeAll SymbolTable.new program.functions

/-- codegen.rs "CodeGenerator::generate_expression". The writer is
modelled as a list of emitted lines (one per writeln). The Binary arm of
the Rust match is "todo!()", a panic: modelled as none (no output, the
process aborts). -/
def generateExpression : Expression → Option (List String)
  | .IntLit n => some ["    mov w0, " ++ toString n]
  | .FunctionCall name =>
      some ["    stp x29, x30, [sp, -16]!",
            "    mov x29, sp",
            "    bl _" ++ name,
            "    ldp x29, x30, [sp], 16"]
  | .Binary _ _ _ => none

/-- codegen.rs "CodeGenerator::generate_statement": lower the returned
expression (when present) into the primary register, then "ret". -/
def generateStatement : Statement → Option (List String)
  | .Return expression => do
      let exprLines ←
        match expression with
        | some expr => generateExpression expr
        | none => some []
      some (exprLines ++ ["    ret"])

/-- The "for statement in &function.body" loop of generate_function: the
statements' lines in order; a panic in any statement aborts the whole
run. -/
def generateStatements : List Statement → Option (List String)
  | [] => some []
  | statement :: rest => do
      let lines ← generateStatement statement
      let restLines ← generateStatements rest
      some (lines ++ restLines)

/-- codegen.rs "CodeGenerator::generate_function": ".globl _name",
"_name:", then each statement's lines in order; nothing is emitted after
the statements. -/
def generateFunction (function : Function) : Option (List String) := do
  let bodyLines ← generateStatements function.body
  some ((".globl _" ++ function.name) :: ("_" ++ function.name ++ ":")
        :: bodyLines)

/-- The "for function in &program.functions" loop of generate: the
functions' lines in program order, with nothing in between. -/
def generateFunctions : List Function → Option (List String)
  | [] => some []
  | function :: rest => do
      let lines ← generateFunction function
      let restLines ← generateFunctions rest
      some (lines ++ restLines)

/-- codegen.rs "CodeGenerator::generate". -/
def generate (program : Program) : Option (List String) :=
  generateFunctions program.functions

/-! Concrete programs used in the theorems below (ASTs as parser.rs would
build them from the corresponding source text). -/

/-- The AST of "int main(){ return 42; }". -/
def prog42 : Program := ⟨[⟨.Int, "main", [.Return (some (.IntLit 42))]⟩]⟩

/-- The AST of "int main(){ return 1+2; }". -/
def progOnePlusTwo : Program :=
  ⟨[⟨.Int, "main", [.Return (some (.Binary (.IntLit 1) .Plus (.IntLit 2)))]⟩]⟩

/-- The AST of "int main(){ return; }". -/
def progIntBareReturn : Program := ⟨[⟨.Int, "main", [.Return none]⟩]⟩

/-- The AST of "int a(){ return 1; } void b(){ return; }". -/
def progTwoFunctions : Program :=
  ⟨[⟨.Int, "a", [.Return (some (.IntLit 1))]⟩,
    ⟨.Void, "b", [.Return none]⟩]⟩

/-- C1 counterexample: the program "int main(){ return 1+2; }" passes
analysis, yet generate produces no assembly for it — the Binary arm of
generate_expression is todo!(), which panics, contradicting the claim
that generate produces output for every analyzed program containing
binary operators. -/
theorem C1_counterexample :
    (analyze progOnePlusTwo).2 = none ∧ generate progOnePlusTwo = none := by
  constructor <;> rfl

/-- C1 amended: code generation lowers only integer literals and
zero-argument calls; any Binary expression reaching generate_expression
hits the unimplemented todo!() arm and aborts with no assembly output,
and so does any statement or program containing one. -/
theorem C1_amended :
    (∀ left op right, generateExpression (.Binary left op right) = none)
    ∧ (∀ left op right,
        generateStatement (.Return (some (.Binary left op right))) = none)
    ∧ ((analyze progOnePlusTwo).2 = none ∧ generate progOnePlusTwo = none) := by
  refine ⟨fun _ _ _ => rfl, fun _ _ _ => rfl, rfl, rfl⟩

/-- C5: the expression parser respects precedence (Plus and Minus bind at
1, Star and Slash at 2) and left-associativity: for any two operators, a
first operator of greater-or-equal precedence is applied before the
second (so equal precedence associates to the left), a first operator of
lower precedence is applied after; parentheses override this, so the
tokens of "1*2+3" parse as (1*2)+3 and those of "1*(2+3)" as 1*(2+3). -/
theorem C5_precedence_left_assoc :
    (Operator.precedence .Plus = 1 ∧ Operator.precedence .Minus = 1 ∧
     Operator.precedence .Star = 2 ∧ Operator.precedence .Slash = 2)
    ∧ (∀ o1 o2 : Operator, o1.precedence ≥ o2.precedence →
        parseExpression [.IntLit 1, .Operator o1, .IntLit 2, .Operator o2, .IntLit 3]
          = .ok (some (.Binary (.Binary (.IntLit 1) o1 (.IntLit 2)) o2 (.IntLit 3)), []))
    ∧ (∀ o1 o2 : Operator, o1.precedence < o2.precedence →
        parseExpression [.IntLit 1, .Operator o1, .IntLit 2, .Operator o2, .IntLit 3]
          = .ok (some (.Binary (.IntLit 1) o1 (.Binary (.IntLit 2) o2 (.IntLit 3))), []))
    ∧ parseExpression [.IntLit 1, .Operator .Star, .IntLit 2, .Operator .Plus, .IntLit 3]
        = .ok (some (.Binary (.Binary (.IntLit 1) .Star (.IntLit 2)) .Plus (.IntLit 3)), [])
    ∧ parseExpression [.IntLit 1, .Operator .Star, .Separator .LParen, .IntLit 2,
        .Operator .Plus, .IntLit 3, .Separator .RParen]
        = .ok (some (.Binary (.IntLit 1) .Star (.Binary (.IntLit 2) .Plus (.IntLit 3))), []) := by
  refine ⟨⟨rfl, rfl, rfl, rfl⟩, by decide, by decide, rfl, rfl⟩

/-- C5 witness: the general precedence statements instantiated at
Star/Plus (left nesting) and Plus/Star (right nesting). -/
theorem C5_witness :
    parseExpression [.IntLit 1, .Operator .Star, .IntLit 2, .Operator .Plus, .IntLit 3]
      = .ok (some (.Binary (.Binary (.IntLit 1) .Star (.IntLit 2)) .Plus (.IntLit 3)), [])
    ∧ parseExpression [.IntLit 1, .Operator .Plus, .IntLit 2, .Operator .Star, .IntLit 3]
      = .ok (some (.Binary (.IntLit 1) .Plus (.Binary (.IntLit 2) .Star (.IntLit 3))), []) :=
  ⟨C5_precedence_left_assoc.2.1 .Star .Plus (by decide),
   C5_precedence_left_assoc.2.2.1 .Plus .Star (by decide)⟩

/-- C6: for the program "int main(){ return 42; }" the generated assembly
is exactly the four lines ".globl _main", "_main:", "    mov w0, 42",
"    ret". -/
theorem C6_main42_output :
    generate prog42 =
      some [".globl _main", "_main:", "    mov w0, 42", "    ret"] := by
  rfl

/-- C9: apply_operator fails with "Not enough operands" when the operand
stack has fewer than two entries and otherwise pops right then left and
pushes the Binary node; at end of scanning zero remaining operands yield
no expression, one is returned as the result, and two or more fail with
"Too many operands" — concretely, "1 2" fails with too many operands
while a trailing or leading operator fails with not enough operands. -/
theorem C9_operand_arity :
    (∀ op, applyOperator [] op = .error .NotEnoughOperands)
    ∧ (∀ op e, applyOperator [e] op = .error .NotEnoughOperands)
    ∧ (∀ op right left rest,
        applyOperator (right :: left :: rest) op = .ok (.Binary left op right :: rest))
    ∧ finishExpression [] [] = .ok none
    ∧ (∀ e, finishExpression [e] [] = .ok (some e))
    ∧ (∀ e1 e2 rest, finishExpression (e1 :: e2 :: rest) [] = .error .TooManyOperands)
    ∧ parseExpression [.IntLit 1, .IntLit 2] = .error .TooManyOperands
    ∧ parseExpression [.IntLit 1, .Operator .Plus] = .error .NotEnoughOperands
    ∧ parseExpression [.Operator .Plus, .IntLit 1] = .error .NotEnoughOperands := by
  refine ⟨fun _ => rfl, fun _ _ => rfl, fun _ _ _ _ => rfl, rfl,
    fun _ => rfl, fun _ _ _ => rfl, rfl, rfl, rfl⟩

/-- Reduction of an Except bind on a success value (the "?" operator on
an Ok result). -/
theorem ok_bind {ε α β : Type} (a : α) (f : α → Except ε β) :
    (Except.ok a : Except ε α) >>= f = f a := rfl

/-- Reduction of an Except bind on an error value (the "?" operator on an
Err result: early return). -/
theorem error_bind {ε α β : Type} (e : ε) (f : α → Except ε β) :
    (Except.error e : Except ε α) >>= f = .error e := rfl

/-- C7: analysis of a return statement succeeds exactly when the static
type of its expression (literal: Int, absent: Void, call: the callee
symbol's type, as computed by analyzeExpression) equals the enclosing
function's declared return type, and a mismatch fails with the
return-type-mismatch error; hence a void function with a bare return
passes while an int function with a bare return fails. -/
theorem C7_return_type_check :
    (∀ (t : SymbolTable) (e : Option Expression) (ty rt : Ty),
      analyzeExpression t e = .ok ty →
        ((analyzeStatement t (.Return e) rt = .ok ()) ↔ ty = rt)
        ∧ (ty ≠ rt → analyzeStatement t (.Return e) rt
            = .error (.ReturnTypeMismatch rt ty)))
    ∧ (∀ (t : SymbolTable) (name : String),
        (analyzeFunction t ⟨.Void, name, [.Return none]⟩).2 = none)
    ∧ (∀ (t : SymbolTable) (name : String),
        (analyzeFunction t ⟨.Int, name, [.Return none]⟩).2
          = some (.ReturnTypeMismatch .Int .Void)) := by
  refine ⟨?_, fun t name => rfl, fun t name => rfl⟩
  intro t e ty rt h
  by_cases hty : ty = rt <;>
    simp [analyzeStatement, h, hty, ok_bind]

/-- C7 witness: a return of an integer literal checks against Int, a bare
return fails against Int, and a void function with a bare return passes. -/
theorem C7_witness :
    analyzeStatement SymbolTable.new (.Return (some (.IntLit 0))) .Int = .ok ()
    ∧ analyzeStatement SymbolTable.new (.Return none) .Int
        = .error (.ReturnTypeMismatch .Int .Void)
    ∧ (analyzeFunction SymbolTable.new ⟨.Void, "f", [.Return none]⟩).2 = none :=
  ⟨(C7_return_type_check.1 SymbolTable.new (some (.IntLit 0)) .Int .Int rfl).1.mpr rfl,
   (C7_return_type_check.1 SymbolTable.new none .Void .Int rfl).2 (by decide),
   C7_return_type_check.2.1 SymbolTable.new "f"⟩

/-- C8: the function's symbol is inserted into the current scope before
its body is analyzed, so inside the body a call to the function's own
name resolves to the enclosing function's return type, and a function
whose body returns a call to itself passes analysis (direct
self-recursion type-checks) — for any starting table that has at least
one scope (the analyzer always has the global scope). -/
theorem C8_self_recursion (t : SymbolTable) (name : String) (rt : Ty)
    (h : t.stack ≠ []) :
    analyzeExpression ((t.insert name ⟨.Function [], rt⟩).enter_scope)
        (some (.FunctionCall name)) = .ok rt
    ∧ (analyzeFunction t ⟨rt, name, [.Return (some (.FunctionCall name))]⟩).2
        = none := by
  obtain ⟨scope, rest, hst⟩ : ∃ scope rest, t.stack = scope :: rest := by
    cases hs : t.stack with
    | nil => exact absurd hs h
    | cons a b => exact ⟨a, b, rfl⟩
  have hget : ((t.insert name ⟨.Function [], rt⟩).enter_scope).get name
      = some ⟨.Function [], rt⟩ := by
    simp [SymbolTable.get, SymbolTable.insert, SymbolTable.enter_scope, hst,
      List.lookup]
  constructor
  · simp [analyzeExpression, analyzeExpr, hget]
  · simp [analyzeFunction, analyzeStatements, analyzeStatement, analyzeExpression,
      analyzeExpr, hget, ok_bind]

/-- C8 witness: "int f(){ return f(); }" analyzed from a fresh symbol
table type-checks. -/
theorem C8_witness :
    analyzeExpression ((SymbolTable.new.insert "f" ⟨.Function [], .Int⟩).enter_scope)
        (some (.FunctionCall "f")) = .ok .Int
    ∧ (analyzeFunction SymbolTable.new
        ⟨.Int, "f", [.Return (some (.FunctionCall "f"))]⟩).2 = none :=
  C8_self_recursion SymbolTable.new "f" .Int (by decide)

/-- C10: function symbols become visible strictly in declaration order:
when f's body calls g and g is declared after f, analyze fails with the
undefined-symbol error for g even though g appears in the program. -/
theorem C10_forward_reference (fname gname : String) (h : fname ≠ gname) :
    (analyze ⟨[⟨.Int, fname, [.Return (some (.FunctionCall gname))]⟩,
               ⟨.Int, gname, [.Return (some (.IntLit 0))]⟩]⟩).2
      = some (.UndefinedFunction gname) := by
  have hbeq : (gname == fname) = false := beq_eq_false_iff_ne.mpr (Ne.symm h)
  have hget : SymbolTable.get
      ⟨[[], [(fname, ⟨.Function [], .Int⟩)]]⟩ gname = none := by
    simp [SymbolTable.get, List.lookup, hbeq]
  simp [analyze, analyzeAll, analyzeFunction, analyzeStatements, analyzeStatement,
    analyzeExpression, analyzeExpr, SymbolTable.new,
    SymbolTable.insert, SymbolTable.enter_scope, hget, ok_bind, error_bind]

/-- C10 witness: "int f(){ return g(); } int g(){ return 0; }" fails with
undefined function g. -/
theorem C10_witness :
    (analyze ⟨[⟨.Int, "f", [.Return (some (.FunctionCall "g"))]⟩,
               ⟨.Int, "g", [.Return (some (.IntLit 0))]⟩]⟩).2
      = some (.UndefinedFunction "g") :=
  C10_forward_reference "f" "g" (by decide)

/-- A parse-expression error produced by apply_operator is always the
not-enough-operands error. -/
theorem applyOperator_error (s : List Expression) (op : Operator) (e : PError)
    (h : applyOperator s op = .error e) : e = .NotEnoughOperands := by
  unfold applyOperator at h
  split at h
  · exact absurd h (by simp)
  · simpa using h.symm

/-- Draining the operator stack can only fail with the
not-enough-operands error, never with mismatched parentheses. -/
theorem drainOperators_error :
    ∀ (ops : List TokenKind) (opnds : List Expression) (e : PError),
      drainOperators ops opnds = .error e → e = .NotEnoughOperands := by
  intro ops
  induction ops with
  | nil => intro opnds e h; simp [drainOperators] at h
  | cons entry rest ih =>
      intro opnds e h
      match entry with
      | .Operator op =>
          simp only [drainOperators] at h
          cases hap : applyOperator opnds op with
          | error e1 =>
              rw [hap] at h
              simp [error_bind] at h
              rw [← h]
              exact applyOperator_error opnds op e1 hap
          | ok s1 =>
              rw [hap] at h
              rw [ok_bind] at h
              exact ih s1 e h
      | .Identifier name => simp [drainOperators] at h
      | .Keyword k => simp [drainOperators] at h
      | .Type t => simp [drainOperators] at h
      | .Separator s => simp [drainOperators] at h
      | .IntLit n => simp [drainOperators] at h

/-- The precedence-driven pop loop can only fail with the
not-enough-operands error. -/
theorem popGreaterEq_error :
    ∀ (ops : List TokenKind) (opnds : List Expression) (prec : Nat) (e : PError),
      popGreaterEq ops opnds prec = .error e → e = .NotEnoughOperands := by
  intro ops
  induction ops with
  | nil => intro opnds prec e h; simp [popGreaterEq] at h
  | cons entry rest ih =>
      intro opnds prec e h
      match entry with
      | .Operator op =>
          simp only [popGreaterEq] at h
          split at h
          · cases hap : applyOperator opnds op with
            | error e1 =>
                rw [hap] at h
                simp [error_bind] at h
                rw [← h]
                exact applyOperator_error opnds op e1 hap
            | ok s1 =>
                rw [hap] at h
                rw [ok_bind] at h
                exact ih s1 prec e h
          · exact absurd h (by simp)
      | .Identifier name => simp [popGreaterEq] at h
      | .Keyword k => simp [popGreaterEq] at h
      | .Type t => simp [popGreaterEq] at h
      | .Separator s => simp [popGreaterEq] at h
      | .IntLit n => simp [popGreaterEq] at h

/-- The end-of-scan finish code can only fail with not-enough-operands or
too-many-operands, never with mismatched parentheses. -/
theorem finishExpression_error (a : List Expression) (b : List TokenKind)
    (e : PError) (h : finishExpression a b = .error e) :
    e = .NotEnoughOperands ∨ e = .TooManyOperands := by
  simp only [finishExpression] at h
  cases hd : drainOperators b a with
  | error e1 =>
      rw [hd] at h
      simp [error_bind] at h
      exact Or.inl (h ▸ drainOperators_error b a e1 hd)
  | ok p =>
      rw [hd] at h
      rw [ok_bind] at h
      match p, h with
      | (s, ops2), h =>
          match s, h with
          | [], h => exact absurd h (by simp)
          | [x], h => exact absurd h (by simp)
          | x :: y :: rest, h => exact Or.inr (by simpa using h.symm)

set_option maxHeartbeats 1000000 in
/-- On a token list containing no right parenthesis, expression scanning
never produces the mismatched-parentheses error, whatever the starting
stacks — in particular unmatched opening markers left on the operator
stack at end of scanning are discarded silently. -/
theorem loop_no_mismatched :
    ∀ (tokens : List TokenKind) (opnds : List Expression) (ops : List TokenKind),
      TokenKind.Separator .RParen ∉ tokens →
      parseExpressionLoop tokens opnds ops ≠ .error .MismatchedParentheses := by
  intro tokens opnds ops
  induction tokens, opnds, ops using parseExpressionLoop.induct with
  | case1 a b n rest ih =>
      intro hni
      simp only [parseExpressionLoop]
      exact ih (fun hm => hni (List.mem_cons_of_mem _ hm))
  | case2 a b name rest3 ih =>
      intro hni
      exact absurd (by simp) hni
  | case3 a b name t2 rest3 ht2 =>
      intro hni
      simp [parseExpressionLoop, ht2]
  | case4 a b name =>
      intro hni
      simp [parseExpressionLoop]
  | case5 a b name t2 rest3 ht2 =>
      intro hni
      rw [parseExpressionLoop.eq_def]
      simp [ht2]
  | case6 a b name =>
      intro hni
      simp [parseExpressionLoop]
  | case7 a b rest ih =>
      intro hni
      simp only [parseExpressionLoop]
      exact ih (fun hm => hni (List.mem_cons_of_mem _ hm))
  | case8 a rest =>
      intro hni
      exact absurd (by simp) hni
  | case9 a b rest hne a1 b1 hdrain ih =>
      intro hni
      exact absurd (by simp) hni
  | case10 a b rest hne e hdrain =>
      intro hni
      exact absurd (by simp) hni
  | case11 a b op rest b1 a1 hpop ih =>
      intro hni
      simp only [parseExpressionLoop]
      rw [hpop]
      exact ih (fun hm => hni (List.mem_cons_of_mem _ hm))
  | case12 a b op rest e hpop =>
      intro hni
      simp only [parseExpressionLoop]
      rw [hpop]
      have := popGreaterEq_error b a op.precedence e hpop
      simp [this]
  | case13 a b head tail h1 h2 h3 h4 h5 =>
      intro hni
      cases hf : finishExpression a b with
      | error e =>
          rcases finishExpression_error a b e hf with he | he <;>
            · match head, h1, h2, h3, h4, h5 with
              | TokenKind.IntLit n, h1, _, _, _, _ => exact absurd rfl (fun hh => h1 n hh)
              | TokenKind.Identifier name, _, h2, _, _, _ => exact absurd rfl (fun hh => h2 name hh)
              | TokenKind.Operator op, _, _, _, _, h5 => exact absurd rfl (fun hh => h5 op hh)
              | TokenKind.Separator .LParen, _, _, h3, _, _ => exact absurd rfl h3
              | TokenKind.Separator .RParen, _, _, _, h4, _ => exact absurd rfl h4
              | TokenKind.Separator .LBrace, _, _, _, _, _ => simp [parseExpressionLoop, hf, he, Except.map]
              | TokenKind.Separator .RBrace, _, _, _, _, _ => simp [parseExpressionLoop, hf, he, Except.map]
              | TokenKind.Separator .Semi, _, _, _, _, _ => simp [parseExpressionLoop, hf, he, Except.map]
              | TokenKind.Keyword k, _, _, _, _, _ => simp [parseExpressionLoop, hf, he, Except.map]
              | TokenKind.Type t, _, _, _, _, _ => simp [parseExpressionLoop, hf, he, Except.map]
      | ok v =>
          match head, h1, h2, h3, h4, h5 with
          | TokenKind.IntLit n, h1, _, _, _, _ => exact absurd rfl (fun hh => h1 n hh)
          | TokenKind.Identifier name, _, h2, _, _, _ => exact absurd rfl (fun hh => h2 name hh)
          | TokenKind.Operator op, _, _, _, _, h5 => exact absurd rfl (fun hh => h5 op hh)
          | TokenKind.Separator .LParen, _, _, h3, _, _ => exact absurd rfl h3
          | TokenKind.Separator .RParen, _, _, _, h4, _ => exact absurd rfl h4
          | TokenKind.Separator .LBrace, _, _, _, _, _ => simp [parseExpressionLoop, hf, Except.map]
          | TokenKind.Separator .RBrace, _, _, _, _, _ => simp [parseExpressionLoop, hf, Except.map]
          | TokenKind.Separator .Semi, _, _, _, _, _ => simp [parseExpressionLoop, hf, Except.map]
          | TokenKind.Keyword k, _, _, _, _, _ => simp [parseExpressionLoop, hf, Except.map]
          | TokenKind.Type t, _, _, _, _, _ => simp [parseExpressionLoop, hf, Except.map]
  | case14 a b =>
      intro hni
      cases hf : finishExpression a b with
      | error e =>
          rcases finishExpression_error a b e hf with he | he <;>
            simp [parseExpressionLoop, hf, he, Except.map]
      | ok v => simp [parseExpressionLoop, hf, Except.map]

/-- C2 counterexample: the unbalanced input "(()" does NOT fail with
MismatchedParentheses — parse_expression returns Ok with no expression,
silently discarding the unmatched opening markers, refuting the claimed
end-of-scanning check. -/
theorem C2_counterexample :
    parseExpression [.Separator .LParen, .Separator .LParen, .Separator .RParen]
      = .ok (none, []) := rfl

/-- C2 amended: parse fails with MismatchedParentheses exactly when a
right parenthesis is encountered while the operator stack is empty (a
stray leading one in particular); an opening marker still on the
operator stack at the end of scanning is silently discarded with no
error, so "(()" yields no expression and "(1+2" parses as 1+2. -/
theorem C2_mismatched_only_at_rparen :
    (∀ (rest : List TokenKind) (opnds : List Expression),
      parseExpressionLoop (.Separator .RParen :: rest) opnds []
        = .error .MismatchedParentheses)
    ∧ (∀ (tokens : List TokenKind) (opnds : List Expression) (ops : List TokenKind),
        TokenKind.Separator .RParen ∉ tokens →
        parseExpressionLoop tokens opnds ops ≠ .error .MismatchedParentheses)
    ∧ parseExpression [.Separator .LParen, .Separator .LParen, .Separator .RParen]
        = .ok (none, [])
    ∧ parseExpression [.Separator .LParen, .IntLit 1, .Operator .Plus, .IntLit 2]
        = .ok (some (.Binary (.IntLit 1) .Plus (.IntLit 2)), []) :=
  ⟨fun _ _ => rfl, loop_no_mismatched, rfl, rfl⟩

/-- C2 witness: a stray leading right parenthesis fails with
MismatchedParentheses, and a parenthesis-free input cannot produce that
error. -/
theorem C2_witness :
    parseExpressionLoop [.Separator .RParen] [] [] = .error .MismatchedParentheses
    ∧ parseExpressionLoop [.IntLit 7] [] [] ≠ .error .MismatchedParentheses :=
  ⟨C2_mismatched_only_at_rparen.1 [] [],
   C2_mismatched_only_at_rparen.2.1 [.IntLit 7] [] [] (by decide)⟩

/-- SymbolTable::insert never changes the number of scopes. -/
theorem insert_stack_length (t : SymbolTable) (name : String) (info : SymbolInfo) :
    (t.insert name info).stack.length = t.stack.length := by
  rcases t with ⟨stack⟩
  cases stack <;> rfl

/-- When analyze_function succeeds, the resulting table is the starting
table with the function's symbol inserted: the entered scope has been
exited. -/
theorem analyzeFunction_ok (t : SymbolTable) (f : Function) (t' : SymbolTable)
    (h : analyzeFunction t f = (t', none)) :
    t' = t.insert f.name ⟨.Function [], f.return_type⟩ := by
  simp only [analyzeFunction] at h
  split at h
  · exact absurd (congrArg Prod.snd h) (by simp)
  · have h1 := congrArg Prod.fst h
    simp [SymbolTable.exit_scope, SymbolTable.enter_scope] at h1
    exact h1.symm

/-- When analyze_function fails, the scope entered for the function body
has NOT been exited: the table has one more scope than at entry. -/
theorem analyzeFunction_err_length (t : SymbolTable) (f : Function)
    (t' : SymbolTable) (e : AError) (h : analyzeFunction t f = (t', some e)) :
    t'.stack.length = t.stack.length + 1 := by
  simp only [analyzeFunction] at h
  split at h
  · have h1 := congrArg Prod.fst h
    simp [SymbolTable.enter_scope] at h1
    rw [← h1]
    simp [SymbolTable.enter_scope, insert_stack_length]
  · exact absurd (congrArg Prod.snd h) (by simp)

/-- On fully successful analysis every entered scope has been exited: the
scope count is preserved across the function loop. -/
theorem analyzeAll_ok_length :
    ∀ (fs : List Function) (t t' : SymbolTable), analyzeAll t fs = (t', none) →
      t'.stack.length = t.stack.length := by
  intro fs
  induction fs with
  | nil =>
      intro t t' h
      simp only [analyzeAll] at h
      have h1 := congrArg Prod.fst h
      simp at h1
      rw [h1]
  | cons f rest ih =>
      intro t t' h
      simp only [analyzeAll] at h
      split at h
      · next t1 heq =>
          calc t'.stack.length = t1.stack.length := ih t1 t' h
            _ = t.stack.length := by
                rw [analyzeFunction_ok t f t1 heq, insert_stack_length]
      · next t1 e heq => exact absurd (congrArg Prod.snd h) (by simp)

/-- C3 counterexample: analyzing "int main(){ return; }" fails, and at
that moment the symbol table holds TWO scopes, not just the global one —
the scope entered for the function body was never exited on the failure
path, refuting the claim that scope entry and exit are paired whenever
analyze returns, Ok or Err. -/
theorem C3_counterexample :
    (analyze progIntBareReturn).2.isSome = true
    ∧ (analyze progIntBareReturn).1.stack.length = 2 := ⟨rfl, rfl⟩

/-- C3 amended: scope entry and exit are strictly paired on the
successful path — when analyze returns Ok the table holds exactly the
global scope — but on an Err return the scope entered for the failing
function's body has not been exited, leaving the table one scope deeper
than at that function's entry. -/
theorem C3_scope_pairing :
    (∀ (p : Program) (t' : SymbolTable), analyze p = (t', none) →
        t'.stack.length = 1)
    ∧ (∀ (t : SymbolTable) (f : Function) (t' : SymbolTable) (e : AError),
        analyzeFunction t f = (t', some e) →
        t'.stack.length = t.stack.length + 1) := by
  constructor
  · intro p t' h
    exact analyzeAll_ok_length p.functions SymbolTable.new t' h
  · exact analyzeFunction_err_length

/-- C3 witness: the successful analysis of "int main(){ return 42; }"
ends with exactly the global scope, and the failing analysis of a bare
return in an int function ends one scope deeper. -/
theorem C3_witness :
    (analyze prog42).1.stack.length = 1
    ∧ (analyzeFunction SymbolTable.new ⟨.Int, "main", [.Return none]⟩).1.stack.length
        = SymbolTable.new.stack.length + 1 :=
  ⟨C3_scope_pairing.1 prog42 (analyze prog42).1 rfl,
   C3_scope_pairing.2 SymbolTable.new ⟨.Int, "main", [.Return none]⟩
     (analyzeFunction SymbolTable.new ⟨.Int, "main", [.Return none]⟩).1
     (.ReturnTypeMismatch .Int .Void) rfl⟩

/-- Appending to a nonempty string yields a nonempty string. -/
theorem append_ne_empty (s t : String) (h : s ≠ "") : s ++ t ≠ "" := by
  intro he
  have hl : s.length + t.length = 0 := by
    simpa [String.length_append] using congrArg String.length he
  apply h
  have hs : s.length = 0 := by omega
  cases s with
  | mk data =>
    cases data with
    | nil => rfl
    | cons c cs => simp [String.length] at hs

/-- No line emitted for a single statement is blank. -/
theorem generateStatement_no_blank (st : Statement) (lines : List String)
    (h : generateStatement st = some lines) : "" ∉ lines := by
  rcases st with ⟨e⟩
  match e with
  | none =>
      have hlines : lines = ["    ret"] := by
        simpa [generateStatement] using h.symm
      subst hlines
      decide
  | some (.IntLit n) =>
      have hlines : lines = ["    mov w0, " ++ toString n, "    ret"] := by
        simpa [generateStatement, generateExpression] using h.symm
      subst hlines
      intro hmem
      rcases List.mem_cons.mp hmem with h1 | hmem2
      · exact append_ne_empty "    mov w0, " (toString n) (by decide) h1.symm
      · rcases List.mem_cons.mp hmem2 with h1 | h1
        · exact absurd h1 (by decide)
        · exact absurd h1 (by decide)
  | some (.FunctionCall name) =>
      have hlines : lines = ["    stp x29, x30, [sp, -16]!", "    mov x29, sp",
          "    bl _" ++ name, "    ldp x29, x30, [sp], 16", "    ret"] := by
        simpa [generateStatement, generateExpression] using h.symm
      subst hlines
      intro hmem
      rcases List.mem_cons.mp hmem with h1 | hmem2
      · exact absurd h1 (by decide)
      rcases List.mem_cons.mp hmem2 with h1 | hmem3
      · exact absurd h1 (by decide)
      rcases List.mem_cons.mp hmem3 with h1 | hmem4
      · exact append_ne_empty "    bl _" name (by decide) h1.symm
      rcases List.mem_cons.mp hmem4 with h1 | hmem5
      · exact absurd h1 (by decide)
      rcases List.mem_cons.mp hmem5 with h1 | h1
      · exact absurd h1 (by decide)
      · exact absurd h1 (by decide)
  | some (.Binary l op r) =>
      simp [generateStatement, generateExpression] at h

/-- No line emitted for a statement sequence is blank. -/
theorem generateStatements_no_blank :
    ∀ (sts : List Statement) (lines : List String),
      generateStatements sts = some lines → "" ∉ lines := by
  intro sts
  induction sts with
  | nil =>
      intro lines h
      have : lines = [] := by simpa [generateStatements] using h.symm
      subst this
      simp
  | cons st rest ih =>
      intro lines h
      simp only [generateStatements] at h
      cases hst : generateStatement st with
      | none => rw [hst] at h; simp at h
      | some l1 =>
          rw [hst] at h
          cases hrest : generateStatements rest with
          | none => rw [hrest] at h; simp at h
          | some l2 =>
              rw [hrest] at h
              have : lines = l1 ++ l2 := by simpa using h.symm
              subst this
              intro hmem
              rcases List.mem_append.mp hmem with h1 | h1
              · exact generateStatement_no_blank st l1 hst h1
              · exact ih l2 hrest h1

/-- No line of a function's emitted block is blank. -/
theorem generateFunction_no_blank (f : Function) (lines : List String)
    (h : generateFunction f = some lines) : "" ∉ lines := by
  simp only [generateFunction] at h
  cases hb : generateStatements f.body with
  | none => rw [hb] at h; simp at h
  | some bs =>
      rw [hb] at h
      have hlines : lines
          = (".globl _" ++ f.name) :: ("_" ++ f.name ++ ":") :: bs := by
        simpa using h.symm
      subst hlines
      intro hmem
      rcases List.mem_cons.mp hmem with h1 | hmem2
      · exact append_ne_empty ".globl _" f.name (by decide) h1.symm
      rcases List.mem_cons.mp hmem2 with h1 | h1
      · exact append_ne_empty ("_" ++ f.name) ":"
          (append_ne_empty "_" f.name (by decide)) h1.symm
      · exact generateStatements_no_blank f.body bs hb h1

/-- C4 counterexample: the assembly for the two-function program
"int a(){ return 1; } void b(){ return; }" contains no blank line at all
— the second function's export directive directly follows the first
function's ret — refuting the claimed blank separator line between
function blocks. -/
theorem C4_counterexample :
    generate progTwoFunctions
      = some [".globl _a", "_a:", "    mov w0, 1", "    ret",
              ".globl _b", "_b:", "    ret"]
    ∧ "" ∉ [".globl _a", "_a:", "    mov w0, 1", "    ret",
            ".globl _b", "_b:", "    ret"] := ⟨rfl, by decide⟩

/-- C4 amended: for every function, generate emits the export directive
and label, then the lowered statements in order, and nothing else — no
blank separator line is emitted, none of the emitted lines is blank, and
the blocks of consecutive functions are concatenated directly. -/
theorem C4_function_block_layout :
    (∀ (f : Function) (bodyLines : List String),
      generateStatements f.body = some bodyLines →
      generateFunction f
        = some ((".globl _" ++ f.name) :: ("_" ++ f.name ++ ":") :: bodyLines))
    ∧ (∀ (f g : Function) (lf lg : List String),
        generateFunction f = some lf → generateFunction g = some lg →
        generate ⟨[f, g]⟩ = some (lf ++ lg))
    ∧ (∀ (f : Function) (lines : List String),
        generateFunction f = some lines → "" ∉ lines) := by
  refine ⟨?_, ?_, generateFunction_no_blank⟩
  · intro f bodyLines h
    simp [generateFunction, h]
  · intro f g lf lg hf hg
    simp [generate, generateFunctions, hf, hg]

/-- C4 witness: the layout statements instantiated on the two concrete
functions of progTwoFunctions. -/
theorem C4_witness :
    generate ⟨[⟨.Int, "a", [.Return (some (.IntLit 1))]⟩,
               ⟨.Void, "b", [.Return none]⟩]⟩
      = some ([".globl _a", "_a:", "    mov w0, 1", "    ret"]
          ++ [".globl _b", "_b:", "    ret"])
    ∧ "" ∉ [".globl _a", "_a:", "    mov w0, 1", "    ret"] :=
  ⟨C4_function_block_layout.2.1 ⟨.Int, "a", [.Return (some (.IntLit 1))]⟩
      ⟨.Void, "b", [.Return none]⟩ _ _ rfl rfl,
   C4_function_block_layout.2.2 ⟨.Int, "a", [.Return (some (.IntLit 1))]⟩ _ rfl⟩
